import Mathlib

/-!
Verification of the album-rating core of `album_ratings.py`.

The Python module derives an integer quality rating for an album from its
track ratings (a tiered heuristic with filtering, bonuses, penalties,
clamping and half-up rounding) and processes albums one at a time,
optionally writing the rating back and accumulating run statistics.

Embedding conventions:
- Python numbers are modelled exactly: track ratings and durations as `Int`,
  all derived quantities (averages, tier fractions, adjustments) as `ℚ`.
  Every arithmetic operation the code performs (`+ - * / floor min max`) is
  exact on the inputs the claims exercise, so `ℚ` coincides with the
  float semantics there.
- A Python dict track `{"title": ..., "rating": ..., "duration": ...}` is a
  `Track`; a rating stored as Python `None` is `Option.none`.
- Python code that can raise is embedded in `Except String`: comparing
  `None` with an int raises `TypeError`, which `ratingBelow` surfaces as
  `Except.error`.
- Skip-reason strings are modelled structurally: each formatted message is a
  `SkipReason` constructor holding exactly the values the source
  interpolates into the corresponding f-string.
- The two external collaborators used by `process_album` (the track-listing
  fetch and the rating write-back) are passed in as explicit data: the
  track list the service would return, and the boolean outcome of the
  write; the outcome records how many times each collaborator was invoked.
-/

namespace AlbumRatings

/-- A track as produced by `get_album_tracks`: title, optional user rating
(Python `None` when unrated) and duration in whole seconds. -/
structure Track where
  title : String
  rating : Option Int
  duration : Int
deriving Repr, DecidableEq

/-- Structural form of the skip-reason strings built by
`calculate_album_rating` (and the "Album already rated" reason of
`process_album`); each constructor carries the values interpolated into the
message of the source. -/
inductive SkipReason where
  | noRatedTracks
  | unratedTracks (count : Nat) (minRating : Int) (avgRating : ℚ)
  | tooFewTracks (remaining : Nat) (removed : Nat) (minRating : Int) (avgRating : ℚ)
  | albumAlreadyRated
deriving Repr, DecidableEq

/-- Python `min` over a nonempty list (0 for the empty list, which the
source never evaluates). -/
def listMin : List Int → Int
  | [] => 0
  | [x] => x
  | x :: y :: xs => min x (listMin (y :: xs))

/-- Python `max` over a nonempty list (0 for the empty list, which the
source never evaluates). -/
def listMax : List Int → Int
  | [] => 0
  | [x] => x
  | x :: y :: xs => max x (listMax (y :: xs))

/-- The ratings present on a list of tracks:
`[t["rating"] for t in tracks if t["rating"] is not None]`. -/
def presentRatings (tracks : List Track) : List Int :=
  tracks.filterMap (fun t => t.rating)

/-- Python `sum(ratings) / len(ratings)` (0 for the empty list, which the
source never evaluates). -/
def listAvg (l : List Int) : ℚ :=
  (l.sum : ℚ) / l.length

/-- The predicate of line 68: `track.get("rating") is None or
track.get("rating") == 0`. -/
def unratedEquiv (t : Track) : Bool :=
  t.rating == none || t.rating == some 0

/-- Python `track.get("rating", 0) < bound` as it actually executes: the
`"rating"` key is always present (set by `get_album_tracks`), so the
default 0 never applies; when the stored value is `None`, the comparison
`None < int` raises `TypeError`. -/
def ratingBelow (t : Track) (bound : Int) : Except String Bool :=
  match t.rating with
  | some r => .ok (decide (r < bound))
  | none => .error "TypeError: comparison of NoneType and int"

/-- The per-track condition of the filter comprehension (lines 73 and 139):
`not (duration < 60 and rating < 3) and not duration < 30`, with the Python
left-to-right short-circuit of `and` (the rating comparison is only
evaluated when `duration < 60`). -/
def keepTrack (t : Track) : Except String Bool :=
  match (if t.duration < 60 then ratingBelow t 3 else .ok false) with
  | .error e => .error e
  | .ok shortAndLow => .ok (!shortAndLow && !decide (t.duration < 30))

/-- The filter comprehension itself, evaluating tracks left to right and
surfacing the first `TypeError`. -/
def filterTracks : List Track → Except String (List Track)
  | [] => .ok []
  | t :: ts =>
    match keepTrack t with
    | .error e => .error e
    | .ok keep =>
      match filterTracks ts with
      | .error e => .error e
      | .ok rest => .ok (if keep then t :: rest else rest)

/-- Embedding of `get_filtered_tracks` (line 139): textually the same comprehension as
line 73 inside `calculate_album_rating`. -/
def get_filtered_tracks (tracks : List Track) : Except String (List Track) :=
  filterTracks tracks

/-- The Track Filter as the specification words it: keep a track unless it
is shorter than 30 seconds, or shorter than 60 seconds with rating below 3,
an absent rating being treated as 0 for this comparison. -/
def specKeepTrack (t : Track) : Bool :=
  !decide (t.duration < 30) && !(decide (t.duration < 60) && decide (t.rating.getD 0 < 3))

/-- Embedding of `round_half_up` (lines 176-179): `math.floor(n * 10^decimals + 0.5) /
10^decimals`. -/
def round_half_up (n : ℚ) (decimals : Nat) : ℚ :=
  let multiplier : ℚ := 10 ^ decimals
  (⌊n * multiplier + 0.5⌋ : ℚ) / multiplier

/-- Lines 81-118 of `calculate_album_rating`, as a function of the filtered
ratings: tier fractions, best-track bonus, bad-track penalty, no-bad-tracks
bonus, the clamped adjustment, and the unrounded final rating
`max(min_rating, avg_rating + adjustment)`. -/
def album_score (ratings : List Int) : ℚ :=
  let n : ℚ := ratings.length
  let avg_rating : ℚ := (ratings.sum : ℚ) / n
  let excellent : ℚ := (ratings.countP (fun r => decide (9 ≤ r)) : ℚ) / n
  let very_good : ℚ := (ratings.countP (fun r => decide (7 ≤ r) && decide (r < 9)) : ℚ) / n
  let below_average : ℚ := (ratings.countP (fun r => decide (4 ≤ r) && decide (r < 6)) : ℚ) / n
  let poor : ℚ := (ratings.countP (fun r => decide (r < 4)) : ℚ) / n
  let max_rating : Int := if ratings.isEmpty then 0 else listMax ratings
  let best_track_bonus : ℚ := if 9 ≤ max_rating then 0.7 else if 7 ≤ max_rating then 0.3 else 0
  let min_rating : Int := if ratings.isEmpty then 0 else listMin ratings
  let bad_track_penalty : ℚ := if min_rating < 4 then 1.5 else if min_rating < 6 then 0.8 else 0
  let no_bad_tracks_bonus : ℚ := if 6 ≤ min_rating then 0.4 else 0
  let adjustment : ℚ :=
    excellent * 1.2 + very_good * 0.5 + best_track_bonus + no_bad_tracks_bonus
      - below_average * 0.8 - poor * 1.8 - bad_track_penalty
  let adjustment2 : ℚ := max (-1.0) (min 1.0 adjustment)
  max (min_rating : ℚ) (avg_rating + adjustment2)

/-- Embedding of `calculate_album_rating` (lines 58-119). Returns `(rating, skipReason)`;
the `Except` layer carries the `TypeError` that the embedded filter of line
73 could raise (it never fires: the unrated-count check has already ruled
out absent ratings). At line 81 the source reads `track["rating"]` for every
filtered track; at that point every rating is present, so collecting the
present ratings is the same list. -/
def calculate_album_rating (tracks : List Track) :
    Except String (Option ℚ × Option SkipReason) :=
  let ratings := presentRatings tracks
  if ratings.isEmpty then
    .ok (none, some .noRatedTracks)
  else
    let min_rating := listMin ratings
    let avg_rating : ℚ := listAvg ratings
    let unrated_count := tracks.countP unratedEquiv
    if 0 < unrated_count then
      .ok (none, some (.unratedTracks unrated_count min_rating avg_rating))
    else
      match filterTracks tracks with
      | .error e => .error e
      | .ok filtered_tracks =>
        if filtered_tracks.length < 3 then
          let removed_tracks := tracks.length - filtered_tracks.length
          .ok (none, some (.tooFewTracks filtered_tracks.length removed_tracks min_rating avg_rating))
        else
          .ok (some (round_half_up (album_score (presentRatings filtered_tracks)) 0), none)

/-- Embedding of `get_track_stats` (lines 142-147): `(ratings, avg, min, max)` over the
present ratings, all three statistics absent when no rating is present. -/
def get_track_stats (tracks : List Track) :
    List Int × Option ℚ × Option Int × Option Int :=
  let ratings := presentRatings tracks
  if ratings.isEmpty then (ratings, none, none, none)
  else (ratings, some (listAvg ratings), some (listMin ratings), some (listMax ratings))

/-- An album as produced by `get_all_albums`. -/
structure Album where
  key : String
  title : String
  artist : String
  userRating : Option ℚ
deriving Repr, DecidableEq

/-- The `Status` column values of a processing record. -/
inductive Status where
  | skipped
  | preview
  | success
  | failed
deriving Repr, DecidableEq

/-- The execution mode returned by `get_mode`. -/
inductive Mode where
  | preview
  | update
deriving Repr, DecidableEq

/-- One row of the result report (the dict built by `create_result_dict`
and updated by `process_album`). -/
structure ProcessingRecord where
  artist : String
  album : String
  rating : Option ℚ
  status : Status
  ratingAdjustment : Option ℚ
  avgRating : Option ℚ
  lowestTrack : Option Int
  highestTrack : Option Int
  reason : Option SkipReason
deriving Repr, DecidableEq

/-- The `stats` dictionary: `main` initialises all four counters to 0, so a
total structure models `stats.get(key, 0)` faithfully. -/
structure RunStats where
  preview : Nat
  success : Nat
  failed : Nat
  skipped : Nat
deriving Repr, DecidableEq

/-- Embedding of `stats[status] = stats.get(status, 0) + 1`. -/
def bumpStat (stats : RunStats) : Status → RunStats
  | .skipped => { stats with skipped := stats.skipped + 1 }
  | .preview => { stats with preview := stats.preview + 1 }
  | .success => { stats with success := stats.success + 1 }
  | .failed => { stats with failed := stats.failed + 1 }

/-- Embedding of `create_result_dict` (lines 150-164): status `Skipped` when the rating
is absent, else `Preview`; the four numeric fields start absent; the reason
is attached when one is given (every reason string is nonempty, so the Python
truthiness test keeps exactly the non-`None` reasons). -/
def create_result_dict (album : Album) (rating : Option ℚ)
    (skip_reason : Option SkipReason) : ProcessingRecord :=
  { artist := album.artist
    album := album.title
    rating := rating
    status := if rating.isNone then .skipped else .preview
    ratingAdjustment := none
    avgRating := none
    lowestTrack := none
    highestTrack := none
    reason := skip_reason }

/-- The status a rated album ends with (lines 216-218): in update mode the
write-back outcome decides `Success`/`Failed`, in preview mode the record
keeps its `Preview` status. -/
def finalStatus (mode : Mode) (writeOk : Bool) : Status :=
  match mode with
  | .update => if writeOk then .success else .failed
  | .preview => .preview

/-- How many times the write-back collaborator is invoked for a rated album. -/
def writeCallCount (mode : Mode) : Nat :=
  match mode with
  | .update => 1
  | .preview => 0

/-- The outcome of `process_album`: the produced record, the updated stats,
and how many times each external collaborator was invoked
(`get_album_tracks` and `update_album_rating`). -/
structure ProcessOutcome where
  record : ProcessingRecord
  stats : RunStats
  fetchCalls : Nat
  writeCalls : Nat
deriving Repr, DecidableEq

/-- Embedding of `process_album` (lines 191-221). The two external collaborators are
passed as data: `fetchedTracks` is what `get_album_tracks(album["key"])`
would return, `writeOk` the boolean `update_album_rating` would return.
The `Except` layer propagates the `TypeError` the embedded filter could
raise. -/
def process_album (album : Album) (mode : Mode) (stats : RunStats)
    (fetchedTracks : List Track) (writeOk : Bool) : Except String ProcessOutcome :=
  if album.userRating.isSome then
    let result := create_result_dict album none (some .albumAlreadyRated)
    .ok { record := result, stats := bumpStat stats .skipped, fetchCalls := 0, writeCalls := 0 }
  else
    match calculate_album_rating fetchedTracks with
    | .error e => .error e
    | .ok (rating, skip_reason) =>
      let result := create_result_dict album rating skip_reason
      match rating with
      | none =>
        .ok { record := result, stats := bumpStat stats result.status
              fetchCalls := 1, writeCalls := 0 }
      | some r =>
        match get_filtered_tracks fetchedTracks with
        | .error e => .error e
        | .ok filtered_tracks =>
          let stats4 := get_track_stats filtered_tracks
          let result :=
            match stats4.2.1 with
            | some filtered_avg =>
              { result with
                ratingAdjustment := some (round_half_up |r - filtered_avg| 2)
                avgRating := some (round_half_up filtered_avg 2)
                lowestTrack := stats4.2.2.1
                highestTrack := stats4.2.2.2 }
            | none => result
          match mode with
          | .update =>
            let result := { result with status := if writeOk then .success else .failed }
            .ok { record := result, stats := bumpStat stats result.status
                  fetchCalls := 1, writeCalls := 1 }
          | .preview =>
            .ok { record := result, stats := bumpStat stats result.status
                  fetchCalls := 1, writeCalls := 0 }

/-- The per-album loop of `main` (lines 263-271): each album is paired with
the data its collaborators would supply; records accumulate in input order
and the stats thread through. -/
def process_albums : List (Album × List Track × Bool) → Mode → RunStats →
    Except String (List ProcessingRecord × RunStats)
  | [], _, stats => .ok ([], stats)
  | (album, tracks, writeOk) :: rest, mode, stats =>
    match process_album album mode stats tracks writeOk with
    | .error e => .error e
    | .ok out =>
      match process_albums rest mode out.stats with
      | .error e => .error e
      | .ok (records, finalStats) => .ok (out.record :: records, finalStats)

/-! Helper lemmas about the embedded operations. -/

theorem listMin_le : ∀ (l : List Int), ∀ x ∈ l, listMin l ≤ x := by
  intro l
  induction l with
  | nil => intro x hx; cases hx
  | cons a t ih =>
    intro x hx
    cases t with
    | nil =>
      rcases List.mem_cons.mp hx with h | h
      · simp [listMin, h]
      · cases h
    | cons b t2 =>
      rcases List.mem_cons.mp hx with h | h
      · subst h; exact min_le_left _ _
      · exact le_trans (min_le_right _ _) (ih x h)

theorem le_listMax : ∀ (l : List Int), ∀ x ∈ l, x ≤ listMax l := by
  intro l
  induction l with
  | nil => intro x hx; cases hx
  | cons a t ih =>
    intro x hx
    cases t with
    | nil =>
      rcases List.mem_cons.mp hx with h | h
      · simp [listMax, h]
      · cases h
    | cons b t2 =>
      rcases List.mem_cons.mp hx with h | h
      · subst h; exact le_max_left _ _
      · exact le_trans (ih x h) (le_max_right _ _)

theorem listMin_mul_le_sum : ∀ (l : List Int), l ≠ [] → (l.length : Int) * listMin l ≤ l.sum := by
  intro l
  induction l with
  | nil => intro h; exact absurd rfl h
  | cons a t ih =>
    intro _
    cases t with
    | nil => simp [listMin]
    | cons b t2 =>
      have ih2 := ih (by simp)
      have h1 : min a (listMin (b :: t2)) ≤ a := min_le_left _ _
      have h2 : ((b :: t2).length : Int) * min a (listMin (b :: t2)) ≤
          ((b :: t2).length : Int) * listMin (b :: t2) :=
        mul_le_mul_of_nonneg_left (min_le_right _ _) (by positivity)
      have hmin : listMin (a :: b :: t2) = min a (listMin (b :: t2)) := rfl
      have hring : (((b :: t2).length : Int) + 1) * min a (listMin (b :: t2)) =
          ((b :: t2).length : Int) * min a (listMin (b :: t2)) + min a (listMin (b :: t2)) := by
        ring
      simp only [List.sum_cons, List.length_cons, hmin] at *
      push_cast at ih2 h2 hring ⊢
      linarith

theorem listMin_le_listAvg {l : List Int} (h : l ≠ []) : (listMin l : ℚ) ≤ listAvg l := by
  have hlen : 0 < (l.length : ℚ) := by
    have : 0 < l.length := List.length_pos.mpr h
    exact_mod_cast this
  rw [listAvg, le_div_iff₀ hlen, mul_comm]
  exact_mod_cast listMin_mul_le_sum l h

theorem clamp_le_one (x : ℚ) : max (-1.0 : ℚ) (min 1.0 x) ≤ 1 := by
  have h1 : (1.0 : ℚ) = 1 := by norm_num
  rw [h1]
  exact max_le (by norm_num) (min_le_left _ _)

theorem neg_one_le_clamp (x : ℚ) : -1 ≤ max (-1.0 : ℚ) (min 1.0 x) := by
  have h1 : (1.0 : ℚ) = 1 := by norm_num
  rw [h1]
  exact le_max_left _ _

theorem album_score_bounds {ratings : List Int} (h : ratings ≠ []) :
    (listMin ratings : ℚ) ≤ album_score ratings ∧
      album_score ratings ≤ listAvg ratings + 1 := by
  have hne : ratings.isEmpty = false := by simpa using h
  constructor
  · simp only [album_score, hne, Bool.false_eq_true, if_false]
    exact le_max_left _ _
  · simp only [album_score, hne, Bool.false_eq_true, if_false, listAvg]
    apply max_le
    · have := listMin_le_listAvg h
      rw [listAvg] at this
      linarith
    · exact add_le_add_left (clamp_le_one _) _

theorem round_half_up_zero_eq (x : ℚ) : round_half_up x 0 = (⌊x + 0.5⌋ : ℚ) := by
  simp [round_half_up]

theorem intCast_le_round_half_up {m : Int} {x : ℚ} (h : (m : ℚ) ≤ x) :
    (m : ℚ) ≤ round_half_up x 0 := by
  rw [round_half_up_zero_eq]
  have hf : m ≤ ⌊x + 0.5⌋ := Int.le_floor.mpr (by norm_num; linarith)
  exact_mod_cast hf

theorem round_half_up_le_of_le {x b : ℚ} (h : x ≤ b) : round_half_up x 0 ≤ b + 0.5 := by
  rw [round_half_up_zero_eq]
  have hf : (⌊x + 0.5⌋ : ℚ) ≤ x + 0.5 := Int.floor_le _
  linarith

theorem keepTrack_of_some {t : Track} {v : Int} (hv : t.rating = some v) :
    keepTrack t = .ok (specKeepTrack t) := by
  unfold keepTrack ratingBelow specKeepTrack
  rw [hv]
  by_cases hd : t.duration < 60
  all_goals simp [hd, hv, Bool.and_comm]

theorem filterTracks_ok_of_rated : ∀ {ts : List Track}, (∀ t ∈ ts, t.rating ≠ none) →
    filterTracks ts = .ok (ts.filter specKeepTrack) := by
  intro ts
  induction ts with
  | nil => intro _; rfl
  | cons a t ih =>
    intro h
    have ha : a.rating ≠ none := h a (by simp)
    obtain ⟨v, hv⟩ : ∃ v, a.rating = some v := by
      cases hr : a.rating with
      | none => exact absurd hr ha
      | some v => exact ⟨v, rfl⟩
    have iht := ih (fun x hx => h x (by simp [hx]))
    simp [filterTracks, keepTrack_of_some hv, iht, List.filter_cons]

theorem presentRatings_length_of_rated : ∀ {ts : List Track},
    (∀ t ∈ ts, t.rating ≠ none) → (presentRatings ts).length = ts.length := by
  intro ts
  induction ts with
  | nil => intro _; rfl
  | cons a t ih =>
    intro h
    have ha : a.rating ≠ none := h a (by simp)
    obtain ⟨v, hv⟩ : ∃ v, a.rating = some v := by
      cases hr : a.rating with
      | none => exact absurd hr ha
      | some v => exact ⟨v, rfl⟩
    have iht := ih (fun x hx => h x (by simp [hx]))
    simp only [presentRatings, List.filterMap_cons, hv, List.length_cons] at iht ⊢
    omega

theorem rated_nonzero_of_countP_zero {ts : List Track} (h : ts.countP unratedEquiv = 0) :
    ∀ t ∈ ts, ∃ v, t.rating = some v ∧ v ≠ 0 := by
  intro t ht
  have hp := List.countP_eq_zero.mp h t ht
  simp only [unratedEquiv, Bool.or_eq_true, beq_iff_eq] at hp
  push_neg at hp
  cases hr : t.rating with
  | none => exact absurd hr hp.1
  | some v =>
    refine ⟨v, rfl, ?_⟩
    intro hv
    exact hp.2 (by rw [hr, hv])

theorem calc_noRated {tracks : List Track} (h : presentRatings tracks = []) :
    calculate_album_rating tracks = .ok (none, some .noRatedTracks) := by
  simp only [calculate_album_rating, h]
  simp

theorem calc_unrated {tracks : List Track} (hne : presentRatings tracks ≠ [])
    (hcnt : 0 < tracks.countP unratedEquiv) :
    calculate_album_rating tracks =
      .ok (none, some (.unratedTracks (tracks.countP unratedEquiv)
        (listMin (presentRatings tracks)) (listAvg (presentRatings tracks)))) := by
  have he : (presentRatings tracks).isEmpty = false := by simpa using hne
  simp only [calculate_album_rating, he, Bool.false_eq_true, if_false, if_pos hcnt]

theorem calc_rating_inv {tracks : List Track} {r : ℚ} {sr : Option SkipReason}
    (h : calculate_album_rating tracks = .ok (some r, sr)) :
    sr = none ∧ tracks.countP unratedEquiv = 0 ∧ presentRatings tracks ≠ [] ∧
      ∃ ft, filterTracks tracks = .ok ft ∧ 3 ≤ ft.length ∧
        r = round_half_up (album_score (presentRatings ft)) 0 := by
  simp only [calculate_album_rating] at h
  split at h
  · simp at h
  · rename_i hne
    split at h
    · simp at h
    · rename_i hcnt
      split at h
      · simp at h
      · rename_i ft hft
        split at h
        · simp at h
        · rename_i hlen
          simp only [Except.ok.injEq, Prod.mk.injEq, Option.some.injEq] at h
          refine ⟨h.2.symm, by omega, by simpa using hne, ft, hft, by omega, h.1.symm⟩

theorem calc_reason_inv {tracks : List Track} {rt : Option ℚ} {reason : SkipReason}
    (h : calculate_album_rating tracks = .ok (rt, some reason)) :
    reason = .noRatedTracks ∨
      (reason = .unratedTracks (tracks.countP unratedEquiv)
        (listMin (presentRatings tracks)) (listAvg (presentRatings tracks))) ∨
      (∃ rem rm, reason = .tooFewTracks rem rm
        (listMin (presentRatings tracks)) (listAvg (presentRatings tracks))) := by
  simp only [calculate_album_rating] at h
  split at h
  · simp only [Except.ok.injEq, Prod.mk.injEq, Option.some.injEq] at h
    exact Or.inl h.2.symm
  · rename_i hne
    split at h
    · simp only [Except.ok.injEq, Prod.mk.injEq, Option.some.injEq] at h
      exact Or.inr (Or.inl h.2.symm)
    · rename_i hcnt
      split at h
      · simp at h
      · rename_i ft hft
        split at h
        · simp only [Except.ok.injEq, Prod.mk.injEq, Option.some.injEq] at h
          exact Or.inr (Or.inr ⟨ft.length, tracks.length - ft.length, h.2.symm⟩)
        · simp at h

theorem get_track_stats_of_rated {ts : List Track} (h : ∀ t ∈ ts, t.rating ≠ none)
    (hne : ts ≠ []) :
    get_track_stats ts = (presentRatings ts, some (listAvg (presentRatings ts)),
      some (listMin (presentRatings ts)), some (listMax (presentRatings ts))) := by
  have hlen := presentRatings_length_of_rated h
  have hpne : presentRatings ts ≠ [] := by
    intro h0
    rw [h0] at hlen
    exact hne (List.eq_nil_of_length_eq_zero hlen.symm)
  have he : (presentRatings ts).isEmpty = false := by simpa using hpne
  simp [get_track_stats, he]

theorem calc_success_chain {tracks : List Track} {r : ℚ} {sr : Option SkipReason}
    (hc : calculate_album_rating tracks = .ok (some r, sr)) :
    (∀ t ∈ tracks, ∃ v, t.rating = some v ∧ v ≠ 0) ∧
      filterTracks tracks = .ok (tracks.filter specKeepTrack) ∧
      3 ≤ (tracks.filter specKeepTrack).length ∧
      (∀ t ∈ tracks.filter specKeepTrack, t.rating ≠ none) ∧
      tracks.filter specKeepTrack ≠ [] ∧
      r = round_half_up (album_score (presentRatings (tracks.filter specKeepTrack))) 0 := by
  obtain ⟨-, hcnt, -, ft, hft, hlen3, hr⟩ := calc_rating_inv hc
  have hall := rated_nonzero_of_countP_zero hcnt
  have hallsome : ∀ t ∈ tracks, t.rating ≠ none := by
    intro t ht
    obtain ⟨v, hv, -⟩ := hall t ht
    simp [hv]
  have hfo := filterTracks_ok_of_rated hallsome
  have hfeq : tracks.filter specKeepTrack = ft := by
    rw [hfo] at hft
    simpa using hft
  have hftrated : ∀ t ∈ tracks.filter specKeepTrack, t.rating ≠ none :=
    fun t ht => hallsome t (List.mem_of_mem_filter ht)
  have hlen : 3 ≤ (tracks.filter specKeepTrack).length := by rw [hfeq]; exact hlen3
  have hftne : tracks.filter specKeepTrack ≠ [] := by
    intro h0
    rw [h0] at hlen
    simp at hlen
  exact ⟨hall, hfo, hlen, hftrated, hftne, by rw [hfeq]; exact hr⟩

theorem calc_ok (tracks : List Track) :
    ∃ res, calculate_album_rating tracks = .ok res := by
  simp only [calculate_album_rating]
  split
  · exact ⟨_, rfl⟩
  · split
    · exact ⟨_, rfl⟩
    · rename_i hne hcnt
      have hzero : tracks.countP unratedEquiv = 0 := by omega
      have hfo := filterTracks_ok_of_rated (fun t ht => by
        obtain ⟨v, hv, -⟩ := rated_nonzero_of_countP_zero hzero t ht
        simp [hv])
      rw [hfo]
      dsimp only
      split
      · exact ⟨_, rfl⟩
      · exact ⟨_, rfl⟩

theorem process_album_eval {album : Album} {stats : RunStats} {tracks : List Track} {r : ℚ}
    (mode : Mode) (writeOk : Bool)
    (hu : album.userRating = none)
    (hc : calculate_album_rating tracks = .ok (some r, none)) :
    process_album album mode stats tracks writeOk = .ok {
      record := {
        artist := album.artist
        album := album.title
        rating := some r
        status := finalStatus mode writeOk
        ratingAdjustment :=
          some (round_half_up |r - listAvg (presentRatings (tracks.filter specKeepTrack))| 2)
        avgRating := some (round_half_up (listAvg (presentRatings (tracks.filter specKeepTrack))) 2)
        lowestTrack := some (listMin (presentRatings (tracks.filter specKeepTrack)))
        highestTrack := some (listMax (presentRatings (tracks.filter specKeepTrack)))
        reason := none }
      stats := bumpStat stats (finalStatus mode writeOk)
      fetchCalls := 1
      writeCalls := writeCallCount mode } := by
  obtain ⟨-, hfo, -, hftrated, hftne, -⟩ := calc_success_chain hc
  have hstats := get_track_stats_of_rated hftrated hftne
  cases mode with
  | update =>
    cases writeOk with
    | false =>
      simp [process_album, hu, hc, get_filtered_tracks, hfo, hstats, create_result_dict,
        finalStatus, writeCallCount]
    | true =>
      simp [process_album, hu, hc, get_filtered_tracks, hfo, hstats, create_result_dict,
        finalStatus, writeCallCount]
  | preview =>
    simp [process_album, hu, hc, get_filtered_tracks, hfo, hstats, create_result_dict,
      finalStatus, writeCallCount]

theorem process_album_already_rated {album : Album} {u : ℚ} (mode : Mode) (stats : RunStats)
    (tracks : List Track) (writeOk : Bool) (hu : album.userRating = some u) :
    process_album album mode stats tracks writeOk = .ok {
      record := create_result_dict album none (some .albumAlreadyRated)
      stats := bumpStat stats .skipped
      fetchCalls := 0
      writeCalls := 0 } := by
  simp [process_album, hu]

theorem process_album_skip_eval {album : Album} {tracks : List Track} {sr : Option SkipReason}
    (mode : Mode) (stats : RunStats) (writeOk : Bool)
    (hu : album.userRating = none)
    (hc : calculate_album_rating tracks = .ok (none, sr)) :
    process_album album mode stats tracks writeOk = .ok {
      record := create_result_dict album none sr
      stats := bumpStat stats .skipped
      fetchCalls := 1
      writeCalls := 0 } := by
  simp [process_album, hu, hc, create_result_dict]

theorem process_album_ok (album : Album) (mode : Mode) (stats : RunStats)
    (tracks : List Track) (writeOk : Bool) :
    ∃ out, process_album album mode stats tracks writeOk = .ok out := by
  cases hu : album.userRating with
  | some u => exact ⟨_, process_album_already_rated mode stats tracks writeOk hu⟩
  | none =>
    obtain ⟨⟨rating, sr⟩, hres⟩ := calc_ok tracks
    cases rating with
    | none => exact ⟨_, process_album_skip_eval mode stats writeOk hu hres⟩
    | some r =>
      have hsr : sr = none := (calc_rating_inv hres).1
      subst hsr
      exact ⟨_, process_album_eval mode writeOk hu hres⟩

theorem process_albums_ok : ∀ (albums : List (Album × List Track × Bool)) (mode : Mode)
    (stats : RunStats), ∃ records finalStats,
      process_albums albums mode stats = .ok (records, finalStats) ∧
      records.length = albums.length := by
  intro albums
  induction albums with
  | nil => exact fun mode stats => ⟨[], stats, rfl, rfl⟩
  | cons a rest ih =>
    intro mode stats
    obtain ⟨al, tr, wk⟩ := a
    obtain ⟨out, hout⟩ := process_album_ok al mode stats tr wk
    obtain ⟨recs, fs, hrec, hlen⟩ := ih mode out.stats
    exact ⟨out.record :: recs, fs, by simp [process_albums, hout, hrec], by simp [hlen]⟩

theorem calc_none_reason {tracks : List Track} {sr : Option SkipReason}
    (h : calculate_album_rating tracks = .ok (none, sr)) : ∃ s, sr = some s := by
  simp only [calculate_album_rating] at h
  split at h
  · simp only [Except.ok.injEq, Prod.mk.injEq] at h
    exact ⟨_, h.2.symm⟩
  · split at h
    · simp only [Except.ok.injEq, Prod.mk.injEq] at h
      exact ⟨_, h.2.symm⟩
    · split at h
      · simp at h
      · split at h
        · simp only [Except.ok.injEq, Prod.mk.injEq] at h
          exact ⟨_, h.2.symm⟩
        · simp at h

/-- Extracts the diagnostic (min, avg) pair that a skip message interpolates,
when the message carries one. -/
def reasonDiagnostics : SkipReason → Option (Int × ℚ)
  | .unratedTracks _ mn avg => some (mn, avg)
  | .tooFewTracks _ _ mn avg => some (mn, avg)
  | _ => none

/-! Concrete inputs used by the end-to-end scenarios and witnesses. -/

/-- Scenario A of the specification: three tracks rated 9, 8, 9 with
durations 200, 180, 210 seconds. -/
def tracksA : List Track :=
  [⟨"t1", some 9, 200⟩, ⟨"t2", some 8, 180⟩, ⟨"t3", some 9, 210⟩]

/-- Three tracks all rated 10 (long enough to survive the filter). -/
def tracksTens : List Track :=
  [⟨"t1", some 10, 100⟩, ⟨"t2", some 10, 100⟩, ⟨"t3", some 10, 100⟩]

/-- A single unrated track of ordinary length. -/
def trackNoRating : List Track := [⟨"t1", none, 100⟩]

/-- One unrated track alongside one rated 6. -/
def tracksB : List Track := [⟨"t1", none, 100⟩, ⟨"t2", some 6, 100⟩]

/-- A single unrated track shorter than 60 seconds. -/
def shortNone : List Track := [⟨"t1", none, 45⟩]

/-- A mixed fully-rated list exercising both filter conditions. -/
def tracksMixed : List Track :=
  [⟨"t1", some 5, 20⟩, ⟨"t2", some 2, 45⟩, ⟨"t3", some 9, 100⟩]

/-- An album that already carries a user rating. -/
def albumRated : Album := ⟨"k1", "Album1", "Artist1", some 8⟩

/-- An album with no user rating yet. -/
def albumNew : Album := ⟨"k2", "Album2", "Artist2", none⟩

/-- The all-zero statistics `main` starts from. -/
def statsZero : RunStats := ⟨0, 0, 0, 0⟩

theorem tracksA_calc : calculate_album_rating tracksA = .ok (some 10, none) := by
  norm_num [calculate_album_rating, tracksA, presentRatings, listAvg, listMin, listMax,
    unratedEquiv, filterTracks, keepTrack, ratingBelow, album_score, round_half_up,
    List.filterMap, List.countP, List.countP.go, beq_iff_eq, Bool.cond_eq_ite]

theorem tracksTens_calc : calculate_album_rating tracksTens = .ok (some 11, none) := by
  norm_num [calculate_album_rating, tracksTens, presentRatings, listAvg, listMin, listMax,
    unratedEquiv, filterTracks, keepTrack, ratingBelow, album_score, round_half_up,
    List.filterMap, List.countP, List.countP.go, beq_iff_eq, Bool.cond_eq_ite]

theorem tracksB_calc : calculate_album_rating tracksB =
    .ok (none, some (.unratedTracks 1 6 6)) := by
  norm_num [calculate_album_rating, tracksB, presentRatings, listAvg, listMin,
    unratedEquiv, List.filterMap, List.countP, List.countP.go, beq_iff_eq, Bool.cond_eq_ite]

/-! The claims. -/

/-- C1: on tracks rated 9, 8, 9 with durations 200, 180, 210 the Rating Engine
returns rating 10 with no skip reason: all three tracks are rated and survive
the filter, the filtered min is 8 and average 26/3, the raw adjustment
(2/3)·1.2 + (1/3)·0.5 + 0.7 + 0.4 = 31/15 ≈ 2.067 is clamped to 1.0, the final
unrounded value is max(8, 26/3 + 1) = 29/3, and half-up rounding gives 10. -/
theorem c1_scenario_a :
    calculate_album_rating tracksA = .ok (some 10, none) ∧
    get_filtered_tracks tracksA = .ok tracksA ∧
    presentRatings tracksA = [9, 8, 9] ∧
    listMin [9, 8, 9] = 8 ∧
    listAvg [9, 8, 9] = 26 / 3 ∧
    (([9, 8, 9] : List Int).countP (fun r => decide (9 ≤ r)) : ℚ) / 3 = 2 / 3 ∧
    (([9, 8, 9] : List Int).countP (fun r => decide (7 ≤ r) && decide (r < 9)) : ℚ) / 3 = 1 / 3 ∧
    ((2 : ℚ) / 3) * 1.2 + ((1 : ℚ) / 3) * 0.5 + 0.7 + 0.4 = 31 / 15 ∧
    max (-1.0 : ℚ) (min 1.0 (31 / 15)) = 1 ∧
    album_score [9, 8, 9] = max (8 : ℚ) (26 / 3 + 1) ∧
    album_score [9, 8, 9] = 29 / 3 ∧
    round_half_up (29 / 3) 0 = 10 := by
  refine ⟨tracksA_calc, by rfl, by decide, by decide, ?_, ?_, ?_, ?_, ?_, ?_, ?_, ?_⟩
  · norm_num [listAvg]
  · norm_num [List.countP, List.countP.go]
  · norm_num [List.countP, List.countP.go]
  · norm_num
  · norm_num
  · norm_num [album_score, listMin, listMax, List.countP, List.countP.go]
  · norm_num [album_score, listMin, listMax, List.countP, List.countP.go]
  · norm_num [round_half_up]

/-- C2 counterexample: a negative tie does not round to the value of larger
magnitude: `round_half_up(-5/2)` is -2 (the floor-based formula rounds every
tie upward), not -3. -/
theorem c2_negative_tie_counterexample :
    round_half_up (-5 / 2) 0 = -2 ∧ round_half_up (-5 / 2) 0 ≠ -3 := by
  norm_num [round_half_up]

/-- C2 (amended): `round_half_up n d` equals `floor(n·10^d + 0.5) / 10^d`;
positive ties round away from zero (2.5 → 3) and `6.449999` at two decimals
gives 6.45, but every tie rounds upward (toward +∞), so negative ties round
toward zero (-5/2 → -2), not away: for every integer k the tie k + 1/2 rounds
to k + 1. -/
theorem c2_round_half_up_formula :
    (∀ (n : ℚ) (d : Nat), round_half_up n d = (⌊n * 10 ^ d + 0.5⌋ : ℚ) / 10 ^ d) ∧
    round_half_up (5 / 2) 0 = 3 ∧
    round_half_up 6.449999 2 = 6.45 ∧
    round_half_up (-5 / 2) 0 = -2 ∧
    (∀ k : Int, round_half_up ((k : ℚ) + 1 / 2) 0 = k + 1) := by
  refine ⟨fun n d => rfl, by norm_num [round_half_up], by norm_num [round_half_up],
    by norm_num [round_half_up], ?_⟩
  intro k
  simp only [round_half_up, pow_zero, mul_one]
  have h : ((k : ℚ) + 1 / 2) + 0.5 = ((k + 1 : Int) : ℚ) := by push_cast; ring
  rw [h, Int.floor_intCast]
  push_cast
  norm_num

/-- C4 counterexample: a track list whose only track is unrated has an
unrated-equivalent count of 1, yet the reason of the engine is the count-free
"No rated tracks" message (the no-rated-tracks check fires first), not an
unrated-tracks message carrying the count. -/
theorem c4_all_unrated_counterexample :
    0 < trackNoRating.countP unratedEquiv ∧
    calculate_album_rating trackNoRating = .ok (none, some .noRatedTracks) ∧
    (∀ c mn avg, SkipReason.noRatedTracks ≠ SkipReason.unratedTracks c mn avg) := by
  refine ⟨by decide, by rfl, ?_⟩
  intro c mn avg h
  cases h

/-- C4 (amended): whenever at least one track has an absent or zero rating the
engine returns an absent rating; if at least one rating is present the reason
carries the unrated-equivalent count (with the unfiltered min and average),
otherwise the reason is the count-free "No rated tracks" message. -/
theorem c4_unrated_skip {tracks : List Track}
    (h : 0 < tracks.countP unratedEquiv) :
    (presentRatings tracks = [] →
      calculate_album_rating tracks = .ok (none, some .noRatedTracks)) ∧
    (presentRatings tracks ≠ [] →
      calculate_album_rating tracks = .ok (none, some (.unratedTracks
        (tracks.countP unratedEquiv) (listMin (presentRatings tracks))
        (listAvg (presentRatings tracks))))) :=
  ⟨fun hp => calc_noRated hp, fun hp => calc_unrated hp h⟩

/-- C4 witness: on one unrated and one rated-6 track the amended claim yields
the unrated-tracks reason with count 1. -/
theorem c4_unrated_skip_witness :
    calculate_album_rating tracksB = .ok (none, some (.unratedTracks
      (tracksB.countP unratedEquiv) (listMin (presentRatings tracksB))
      (listAvg (presentRatings tracksB)))) :=
  (c4_unrated_skip (by decide)).2 (by decide)

/-- C5: on a track with an absent rating and a duration under 60 seconds the
filter raises TypeError (the `dict.get` default 0 never applies because the
rating key is present holding `None`), instead of treating the absent rating
as 0 — under the reading of the spec the 45-second unrated track would simply be
excluded. On fully rated tracks the filter returns exactly the subsequence the spec
describes, and `get_filtered_tracks` is the very comprehension the engine
uses internally. -/
theorem c5_filter_typeerror :
    get_filtered_tracks shortNone = .error "TypeError: comparison of NoneType and int" ∧
    shortNone.filter specKeepTrack = [] ∧
    get_filtered_tracks tracksMixed = .ok (tracksMixed.filter specKeepTrack) ∧
    tracksMixed.filter specKeepTrack = [⟨"t3", some 9, 100⟩] ∧
    (∀ ts, get_filtered_tracks ts = filterTracks ts) :=
  ⟨by rfl, by decide, by rfl, by decide, fun ts => rfl⟩

/-- C6: for every well-formed track list the Rating Engine completes without
raising and returns exactly one of a rating or a skip reason; the empty list
yields the "No rated tracks" skip reason. -/
theorem c6_never_throws :
    (∀ tracks : List Track,
      (∃ r, calculate_album_rating tracks = .ok (some r, none)) ∨
      (∃ s, calculate_album_rating tracks = .ok (none, some s))) ∧
    calculate_album_rating [] = .ok (none, some .noRatedTracks) := by
  constructor
  · intro tracks
    obtain ⟨⟨rating, sr⟩, hres⟩ := calc_ok tracks
    cases rating with
    | some r =>
      have hsr := (calc_rating_inv hres).1
      subst hsr
      exact Or.inl ⟨r, hres⟩
    | none =>
      obtain ⟨s, hs⟩ := calc_none_reason hres
      subst hs
      exact Or.inr ⟨s, hres⟩
  · rfl

/-- C10: whenever a skip reason of the engine interpolates a diagnostic
(min, avg) pair — the unrated-tracks and too-few-tracks messages — those
figures are computed over the tracks whose rating is present: absent-rating
tracks are excluded from them while tracks rated exactly 0 are included. -/
theorem c10_diagnostics_present_only (tracks : List Track) (rt : Option ℚ)
    (reason : SkipReason) (mn : Int) (avg : ℚ)
    (h : calculate_album_rating tracks = .ok (rt, some reason))
    (hd : reasonDiagnostics reason = some (mn, avg)) :
    mn = listMin (presentRatings tracks) ∧ avg = listAvg (presentRatings tracks) := by
  rcases calc_reason_inv h with h1 | h2 | ⟨rem, rm, h3⟩
  · subst h1
    simp [reasonDiagnostics] at hd
  · subst h2
    simp only [reasonDiagnostics, Option.some.injEq, Prod.mk.injEq] at hd
    exact ⟨hd.1.symm, hd.2.symm⟩
  · subst h3
    simp only [reasonDiagnostics, Option.some.injEq, Prod.mk.injEq] at hd
    exact ⟨hd.1.symm, hd.2.symm⟩

/-- C10 witness: on one absent-rating track plus one rated 6, the diagnostic
pair of the unrated-tracks message is (6, 6) — the absent rating is excluded
from min and average. -/
theorem c10_diagnostics_witness :
    (6 : Int) = listMin (presentRatings tracksB) ∧
    (6 : ℚ) = listAvg (presentRatings tracksB) :=
  c10_diagnostics_present_only tracksB none (.unratedTracks 1 6 6) 6 6 tracksB_calc rfl

/-- C3 counterexample: three tracks all rated 10 (durations 100s) make the
engine return 11 — the produced rating is not at most 10: the average 10 plus
the clamped adjustment +1.0 rounds to 11. -/
theorem c3_rating_above_ten_counterexample :
    calculate_album_rating tracksTens = .ok (some 11, none) ∧ ¬((11 : ℚ) ≤ 10) :=
  ⟨tracksTens_calc, by norm_num⟩

/-- C3 (amended): a produced rating is ≥ the minimum filtered track rating, and
the pre-rounding value `max(min, avg + clampedAdjustment)` is at most the
filtered average + 1.0 and never below the minimum floor; but the rounded
result is only bounded by avg + 3/2 (it can exceed 10, reaching 11 when all
filtered tracks are rated 10). -/
theorem c3_rating_bounds {tracks : List Track} {r : ℚ}
    (h : calculate_album_rating tracks = .ok (some r, none)) :
    ∃ ft, get_filtered_tracks tracks = .ok ft ∧
      r = round_half_up (album_score (presentRatings ft)) 0 ∧
      (listMin (presentRatings ft) : ℚ) ≤ album_score (presentRatings ft) ∧
      album_score (presentRatings ft) ≤ listAvg (presentRatings ft) + 1 ∧
      (listMin (presentRatings ft) : ℚ) ≤ r ∧
      r ≤ listAvg (presentRatings ft) + 3 / 2 := by
  obtain ⟨-, hfo, hlen, hrated, -, hr⟩ := calc_success_chain h
  have hplen := presentRatings_length_of_rated hrated
  have hprne : presentRatings (tracks.filter specKeepTrack) ≠ [] := by
    intro h0
    rw [h0] at hplen
    simp at hplen
    omega
  obtain ⟨hmin, havg⟩ := album_score_bounds hprne
  refine ⟨_, by rw [get_filtered_tracks, hfo], hr, hmin, havg, ?_, ?_⟩
  · rw [hr]
    exact intCast_le_round_half_up hmin
  · rw [hr]
    have hb := round_half_up_le_of_le havg
    have h05 : (0.5 : ℚ) = 1 / 2 := by norm_num
    rw [h05] at hb
    linarith

/-- C3 witness: the bounds instantiated at scenario A, where the rating is 10,
the filtered minimum 8 and the filtered average 26/3. -/
theorem c3_rating_bounds_witness :
    ∃ ft, get_filtered_tracks tracksA = .ok ft ∧
      (10 : ℚ) = round_half_up (album_score (presentRatings ft)) 0 ∧
      (listMin (presentRatings ft) : ℚ) ≤ album_score (presentRatings ft) ∧
      album_score (presentRatings ft) ≤ listAvg (presentRatings ft) + 1 ∧
      (listMin (presentRatings ft) : ℚ) ≤ 10 ∧
      (10 : ℚ) ≤ listAvg (presentRatings ft) + 3 / 2 :=
  c3_rating_bounds tracksA_calc

/-- C7: an album whose user rating is present yields a Skipped record with the
"Album already rated" reason, bumps the Skipped counter by exactly one leaving
the other counters unchanged, and performs no track fetch. -/
theorem c7_already_rated_skip (album : Album) (mode : Mode) (stats : RunStats)
    (tracks : List Track) (writeOk : Bool) (u : ℚ)
    (hu : album.userRating = some u) :
    ∃ out, process_album album mode stats tracks writeOk = .ok out ∧
      out.record.status = .skipped ∧
      out.record.reason = some .albumAlreadyRated ∧
      out.stats.skipped = stats.skipped + 1 ∧
      out.stats.preview = stats.preview ∧
      out.stats.success = stats.success ∧
      out.stats.failed = stats.failed ∧
      out.fetchCalls = 0 := by
  refine ⟨_, process_album_already_rated mode stats tracks writeOk hu, ?_, ?_, ?_, ?_, ?_, ?_, rfl⟩
  all_goals simp [create_result_dict, bumpStat]

/-- C7 witness: a concrete already-rated album in preview mode starting from
zeroed statistics. -/
theorem c7_already_rated_skip_witness :
    ∃ out, process_album albumRated .preview statsZero [] true = .ok out ∧
      out.record.status = .skipped ∧
      out.record.reason = some .albumAlreadyRated ∧
      out.stats.skipped = statsZero.skipped + 1 ∧
      out.stats.preview = statsZero.preview ∧
      out.stats.success = statsZero.success ∧
      out.stats.failed = statsZero.failed ∧
      out.fetchCalls = 0 :=
  c7_already_rated_skip albumRated .preview statsZero [] true 8 rfl

/-- C8: in update mode, when the engine produces a rating and the write-back
reports failure, the status of the record is Failed, the Failed counter is bumped
by exactly one with the other counters unchanged, and a run containing that
album still processes every subsequent album (one record per album). -/
theorem c8_writeback_failed (album : Album) (stats : RunStats) (tracks : List Track)
    (rest : List (Album × List Track × Bool)) (r : ℚ)
    (hu : album.userRating = none)
    (hc : calculate_album_rating tracks = .ok (some r, none)) :
    ∃ out, process_album album .update stats tracks false = .ok out ∧
      out.record.status = .failed ∧
      out.stats.failed = stats.failed + 1 ∧
      out.stats.preview = stats.preview ∧
      out.stats.success = stats.success ∧
      out.stats.skipped = stats.skipped ∧
      ∃ records finalStats,
        process_albums ((album, tracks, false) :: rest) .update stats = .ok (records, finalStats) ∧
        records.length = rest.length + 1 := by
  have heval := @process_album_eval album stats tracks r .update false hu hc
  refine ⟨_, heval, ?_, ?_, ?_, ?_, ?_, ?_⟩
  · simp [finalStatus]
  · simp [finalStatus, bumpStat]
  · simp [finalStatus, bumpStat]
  · simp [finalStatus, bumpStat]
  · simp [finalStatus, bumpStat]
  · obtain ⟨records, finalStats, hprocs, hlen2⟩ :=
      process_albums_ok ((album, tracks, false) :: rest) .update stats
    exact ⟨records, finalStats, hprocs, by simpa using hlen2⟩

/-- C8 witness: a concrete unrated album whose tracks are scenario A, in
update mode with the write-back failing, followed by an empty remainder. -/
theorem c8_writeback_failed_witness :
    ∃ out, process_album albumNew .update statsZero tracksA false = .ok out ∧
      out.record.status = .failed ∧
      out.stats.failed = statsZero.failed + 1 ∧
      out.stats.preview = statsZero.preview ∧
      out.stats.success = statsZero.success ∧
      out.stats.skipped = statsZero.skipped ∧
      ∃ records finalStats,
        process_albums [(albumNew, tracksA, false)] .update statsZero = .ok (records, finalStats) ∧
        records.length = 0 + 1 :=
  c8_writeback_failed albumNew statsZero tracksA [] 10 rfl tracksA_calc

/-- C9: whenever a processing record carries status Preview, Success or Failed,
the engine produced a rating for it: every input track then has a present,
non-zero rating, at least 3 tracks survive the filter (so the filtered average
exists), and all four numeric fields of the record are populated. -/
theorem c9_success_fields_populated (album : Album) (mode : Mode) (stats : RunStats)
    (tracks : List Track) (writeOk : Bool) (out : ProcessOutcome)
    (hp : process_album album mode stats tracks writeOk = .ok out)
    (hs : out.record.status = .preview ∨ out.record.status = .success ∨
      out.record.status = .failed) :
    (∃ r, out.record.rating = some r) ∧
    (∀ t ∈ tracks, ∃ v, t.rating = some v ∧ v ≠ 0) ∧
    (∃ ft, get_filtered_tracks tracks = .ok ft ∧ 3 ≤ ft.length) ∧
    out.record.ratingAdjustment.isSome ∧ out.record.avgRating.isSome ∧
    out.record.lowestTrack.isSome ∧ out.record.highestTrack.isSome := by
  cases hu : album.userRating with
  | some u =>
    rw [process_album_already_rated mode stats tracks writeOk hu] at hp
    simp only [Except.ok.injEq] at hp
    subst hp
    simp [create_result_dict] at hs
  | none =>
    obtain ⟨⟨rating, sr⟩, hres⟩ := calc_ok tracks
    cases rating with
    | none =>
      rw [process_album_skip_eval mode stats writeOk hu hres] at hp
      simp only [Except.ok.injEq] at hp
      subst hp
      simp [create_result_dict] at hs
    | some r =>
      have hsr : sr = none := (calc_rating_inv hres).1
      subst hsr
      obtain ⟨hall, hfo, hlen, -, -, -⟩ := calc_success_chain hres
      rw [process_album_eval mode writeOk hu hres] at hp
      simp only [Except.ok.injEq] at hp
      subst hp
      exact ⟨⟨r, rfl⟩, hall, ⟨_, by rw [get_filtered_tracks, hfo], hlen⟩,
        rfl, rfl, rfl, rfl⟩

/-- The outcome of processing `albumNew` with the scenario A tracks in preview
mode: rating 10, adjustment |10 - 26/3| rounded to 1.33, average 8.67,
lowest 8, highest 9. -/
def outPreviewA : ProcessOutcome := {
  record := {
    artist := "Artist2"
    album := "Album2"
    rating := some 10
    status := .preview
    ratingAdjustment := some (133 / 100)
    avgRating := some (867 / 100)
    lowestTrack := some 8
    highestTrack := some 9
    reason := none }
  stats := ⟨1, 0, 0, 0⟩
  fetchCalls := 1
  writeCalls := 0 }

theorem processA_eval :
    process_album albumNew .preview statsZero tracksA true = .ok outPreviewA := by
  rw [process_album_eval .preview true rfl tracksA_calc]
  have habs : |(4 : ℚ) / 3| = 4 / 3 := abs_of_nonneg (by norm_num)
  norm_num [outPreviewA, finalStatus, writeCallCount, bumpStat, statsZero, albumNew, tracksA,
    specKeepTrack, presentRatings, listAvg, listMin, listMax, round_half_up,
    List.filter, List.filterMap, habs]

/-- C9 witness: the populated-fields property instantiated at scenario A in
preview mode, whose record has status Preview and all four numeric fields. -/
theorem c9_success_fields_populated_witness :
    (∃ r, outPreviewA.record.rating = some r) ∧
    (∀ t ∈ tracksA, ∃ v, t.rating = some v ∧ v ≠ 0) ∧
    (∃ ft, get_filtered_tracks tracksA = .ok ft ∧ 3 ≤ ft.length) ∧
    outPreviewA.record.ratingAdjustment.isSome ∧ outPreviewA.record.avgRating.isSome ∧
    outPreviewA.record.lowestTrack.isSome ∧ outPreviewA.record.highestTrack.isSome :=
  c9_success_fields_populated albumNew .preview statsZero tracksA true outPreviewA
    processA_eval (Or.inl rfl)

end AlbumRatings
